import Mathlib

/-!
Shallow embedding of the Betaflight-derived PID control core
(src/main/flight/pid.c of the NotFastEnuf/betaflight tree) in Lean 4.

Floating-point values are modelled as rationals, machine integers as
Nat/Int with explicit wraparound where the code relies on it
(timeUs_t arithmetic).  External collaborators (gyro, RC input, mixer,
attitude estimate, filters applied through function pointers) are
modelled as fields of an environment record supplied to each tick.
-/

set_option maxRecDepth 4000
set_option maxHeartbeats 1000000

/- The rational arithmetic operations in the library are marked
   irreducible, which prevents concrete evaluation of the model inside
   decidability checks; restore the default reducibility locally. -/
attribute [local semireducible] Rat.add Rat.mul Rat.sub Rat.inv

namespace PidCore

/-- Flight dynamics axis index: FD_ROLL = 0, FD_PITCH = 1, FD_YAW = 2. -/
inductive Axis : Type
  | roll
  | pitch
  | yaw
deriving DecidableEq, Repr, Fintype

/-- Per-axis triple of rationals, modelling float name[3] arrays. -/
structure V3 : Type where
  r : ℚ
  p : ℚ
  y : ℚ
deriving DecidableEq, Repr

/-- Read the component of a V3 selected by an axis. -/
def V3.get (v : V3) : Axis → ℚ
  | Axis.roll => v.r
  | Axis.pitch => v.p
  | Axis.yaw => v.y

/-- Write the component of a V3 selected by an axis. -/
def V3.set (v : V3) : Axis → ℚ → V3
  | Axis.roll, x => { v with r := x }
  | Axis.pitch, x => { v with p := x }
  | Axis.yaw, x => { v with y := x }

/-- constrainf from common/maths.h: clamp amt into [low, high]. -/
def constrainf (amt low high : ℚ) : ℚ :=
  if amt < low then low
  else if amt > high then high
  else amt

/-- cmpTimeUs from drivers/time.h: (timeDelta_t)(a - b), i.e. the
    uint32 difference reinterpreted as a signed 32-bit integer. -/
def cmpTimeUs (a b : ℕ) : ℤ :=
  let d := ((a : ℤ) - (b : ℤ)) % (2 ^ 32)
  if d < 2 ^ 31 then d else d - 2 ^ 32

/-- Unsigned 32-bit subtraction a - b (used for the deltaT computation
    on timeUs_t values in pidController). -/
def u32sub (a b : ℕ) : ℕ :=
  (((a : ℤ) - (b : ℤ)) % (2 ^ 32)).toNat

/-- Per-axis P, I, D gains of a profile (raw integer values). -/
structure pidf : Type where
  p : ℕ
  i : ℕ
  d : ℕ
deriving DecidableEq, Repr

/-- Tunable profile fields read by the control core (pidProfile_t).
    All raw fields are unsigned machine integers in the source. -/
structure pidProfile : Type where
  pidRoll : pidf
  pidPitch : pidf
  pidYaw : pidf
  pidLevel_ : pidf
  yaw_lpf_hz : ℕ
  dterm_lpf_hz : ℕ
  dterm_notch_hz : ℕ
  dterm_notch_cutoff : ℕ
  dterm_filter_type : ℕ
  itermWindupPointPercent : ℕ
  levelAngleLimit : ℕ
  setpointRelaxRatio : ℕ
  dtermSetpointWeight : ℕ
  yawRateAccelLimit : ℕ
  rateAccelLimit : ℕ
  crash_time : ℕ
  crash_delay : ℕ
  crash_recovery_angle : ℕ
  crash_recovery_rate : ℕ
  crash_dthreshold : ℕ
  crash_gthreshold : ℕ
  crash_setpoint_threshold : ℕ
  crash_recovery : ℕ
  horizon_tilt_effect : ℕ
  horizon_tilt_expert_mode : Bool
  crash_limit_yaw : ℕ
  itermLimit : ℕ
deriving DecidableEq, Repr

/-- Gain of the profile entry for a rate axis. -/
def pidProfile.pidOf (prof : pidProfile) : Axis → pidf
  | Axis.roll => prof.pidRoll
  | Axis.pitch => prof.pidPitch
  | Axis.yaw => prof.pidYaw

/-- Scale constants from flight/pid.h (not under src/, standard
    Betaflight values; their exact magnitudes are irrelevant to the
    claims, which treat Kp/Ki/Kd abstractly). -/
def PTERM_SCALE : ℚ := 32029 / 1000000
/-- Scale constant for the integral gain, from flight/pid.h. -/
def ITERM_SCALE : ℚ := 244381 / 1000000
/-- Scale constant for the derivative gain, from flight/pid.h. -/
def DTERM_SCALE : ℚ := 529 / 1000000

/-- Derived parameters: the module-level FAST_RAM statics written by
    pidInitConfig, plus dT (pidSetTargetLooptime), itermAccelerator
    (pidSetItermAccelerator) and pidStabilisationEnabled
    (pidStabilisationState), which live in the same module state. -/
structure Config : Type where
  Kp : V3
  Ki : V3
  Kd : V3
  maxVelocity : V3
  relaxFactor : ℚ
  dtermSetpointWeight : ℚ
  levelGain : ℚ
  horizonGain : ℚ
  horizonTransition : ℚ
  horizonCutoffDegrees : ℚ
  horizonFactorRatio : ℚ
  horizonTiltExpertMode : Bool
  ITermWindupPointInv : ℚ
  crashTimeLimitUs : ℤ
  crashTimeDelayUs : ℤ
  crashRecoveryAngleDeciDegrees : ℤ
  crashRecoveryRate : ℚ
  crashDtermThreshold : ℚ
  crashGyroThreshold : ℚ
  crashSetpointThreshold : ℚ
  crashLimitYaw : ℚ
  itermLimit : ℚ
  dT : ℚ
  itermAccelerator : ℚ
  pidStabilisationEnabled : Bool
deriving DecidableEq, Repr

/-- dT as computed by pidSetTargetLooptime:
    targetPidLooptime * 0.000001 (seconds per tick). -/
def dTof (targetPidLooptime : ℕ) : ℚ :=
  (targetPidLooptime : ℚ) * (1 / 1000000)

/-- pidInitConfig: derive the runtime constants from a profile and the
    loop period dT.  itermAccelerator and pidStabilisationEnabled are
    not touched by pidInitConfig; they are threaded through unchanged. -/
def pidInitConfig (prof : pidProfile) (dT : ℚ)
    (itermAccelerator : ℚ) (pidStabilisationEnabled : Bool) : Config :=
  { Kp := ⟨PTERM_SCALE * prof.pidRoll.p, PTERM_SCALE * prof.pidPitch.p,
           PTERM_SCALE * prof.pidYaw.p⟩
    Ki := ⟨ITERM_SCALE * prof.pidRoll.i, ITERM_SCALE * prof.pidPitch.i,
           ITERM_SCALE * prof.pidYaw.i⟩
    Kd := ⟨DTERM_SCALE * prof.pidRoll.d, DTERM_SCALE * prof.pidPitch.d,
           DTERM_SCALE * prof.pidYaw.d⟩
    maxVelocity := ⟨(prof.rateAccelLimit : ℚ) * 100 * dT,
                    (prof.rateAccelLimit : ℚ) * 100 * dT,
                    (prof.yawRateAccelLimit : ℚ) * 100 * dT⟩
    relaxFactor := 1 / ((prof.setpointRelaxRatio : ℚ) / 100)
    dtermSetpointWeight := (prof.dtermSetpointWeight : ℚ) / 127
    levelGain := (prof.pidLevel_.p : ℚ) / 10
    horizonGain := (prof.pidLevel_.i : ℚ) / 10
    horizonTransition := (prof.pidLevel_.d : ℚ)
    horizonCutoffDegrees := ((175 : ℚ) - (prof.horizon_tilt_effect : ℚ)) * (18 / 10)
    horizonFactorRatio := ((100 : ℚ) - (prof.horizon_tilt_effect : ℚ)) * (1 / 100)
    horizonTiltExpertMode := prof.horizon_tilt_expert_mode
    ITermWindupPointInv :=
      1 / (1 - (prof.itermWindupPointPercent : ℚ) / 100)
    crashTimeLimitUs := (prof.crash_time : ℤ) * 1000
    crashTimeDelayUs := (prof.crash_delay : ℤ) * 1000
    crashRecoveryAngleDeciDegrees := (prof.crash_recovery_angle : ℤ) * 10
    crashRecoveryRate := (prof.crash_recovery_rate : ℚ)
    crashDtermThreshold := (prof.crash_dthreshold : ℚ)
    crashGyroThreshold := (prof.crash_gthreshold : ℚ)
    crashSetpointThreshold := (prof.crash_setpoint_threshold : ℚ)
    crashLimitYaw := (prof.crash_limit_yaw : ℚ)
    itermLimit := (prof.itermLimit : ℚ)
    dT := dT
    itermAccelerator := itermAccelerator
    pidStabilisationEnabled := pidStabilisationEnabled }

/-- ANGLE_MODE flag bit (fc/runtime_config.h, outside src/; only its
    distinctness from other bits matters here). -/
def ANGLE_MODE : ℕ := 1
/-- HORIZON_MODE flag bit (fc/runtime_config.h, outside src/). -/
def HORIZON_MODE : ℕ := 2

/-- External inputs of one control tick: sensed values, RC input, mode
    flags, mixer feedback, and the stateful filters reached through
    function pointers (modelled as opaque per-axis functions). -/
structure Env : Type where
  currentTimeUs : ℕ
  tpaFactor : ℚ
  motorMixRange : ℚ
  setpointRate : Axis → ℚ
  gyroADCf : Axis → ℚ
  rcDeflection : Axis → ℚ
  rcDeflectionAbs : Axis → ℚ
  attitudeRaw : Axis → ℚ
  angleTrimRaw : Axis → ℚ
  gpsAngle : Axis → ℚ
  flightModeFlags : ℕ
  armed : Bool
  gyroOverflowDetected : Bool
  sensorAcc : Bool
  outputSaturated : Axis → ℚ → Bool
  dtermNotchApply : Axis → ℚ → ℚ
  dtermLpfApply : Axis → ℚ → ℚ
  ptermYawApply : ℚ → ℚ

/-- FLIGHT_MODE(x) test: mask bit set in flightModeFlags. -/
def flightMode (env : Env) (mask : ℕ) : Bool :=
  env.flightModeFlags &&& mask ≠ 0

/-- Persistent control-core state across ticks: output channels,
    per-axis statics, crash state and the previous tick timestamp. -/
structure PidState : Type where
  axisPID_P : V3
  axisPID_I : V3
  axisPID_D : V3
  axisPIDSum : V3
  previousSetpoint : V3
  previousRateError : V3
  inCrashRecoveryMode : Bool
  crashDetectedAtUs : ℕ
  previousTimeUs : ℕ

/-- pidResetITerm: zero the integral accumulator on every axis. -/
def pidResetITerm (st : PidState) : PidState :=
  { st with axisPID_I := ⟨0, 0, 0⟩ }

/-- currentInclination as computed inside calcHorizonLevelStrength:
    MAX(ABS(attitude.values.roll), ABS(attitude.values.pitch)) / 10. -/
def currentInclination (env : Env) : ℚ :=
  max |env.attitudeRaw Axis.roll| |env.attitudeRaw Axis.pitch| / 10

/-- calcHorizonLevelStrength: leveling strength in [0,1] as a function
    of inclination, with distinct expert / limited sub-mode formulas. -/
def calcHorizonLevelStrength (cfg : Config) (env : Env) : ℚ :=
  let inclination := currentInclination env
  let horizonLevelStrength :=
    if cfg.horizonTiltExpertMode then
      if cfg.horizonTransition > 0 ∧ cfg.horizonCutoffDegrees > 0 then
        constrainf ((cfg.horizonCutoffDegrees - inclination) /
          cfg.horizonCutoffDegrees) 0 1
      else 0
    else
      if cfg.horizonCutoffDegrees > 0 then
        constrainf (((cfg.horizonCutoffDegrees - inclination) * 2) /
          cfg.horizonCutoffDegrees) 0 1
      else 0
  constrainf horizonLevelStrength 0 1

/-- Error angle computed at the top of pidLevel: clamped desired tilt
    minus measured tilt in degrees. -/
def errorAngleOf (prof : pidProfile) (env : Env) (a : Axis) : ℚ :=
  let angle0 := (prof.levelAngleLimit : ℚ) * env.rcDeflection a + env.gpsAngle a
  let angle := constrainf angle0 (-(prof.levelAngleLimit : ℚ))
    (prof.levelAngleLimit : ℚ)
  angle - (env.attitudeRaw a - env.angleTrimRaw a) / 10

/-- pidLevel: angle-mode setpoint or the horizon/racemode blend. -/
def pidLevel (cfg : Config) (prof : pidProfile) (env : Env) (a : Axis)
    (currentPidSetpoint : ℚ) : ℚ :=
  let errorAngle := errorAngleOf prof env a
  if flightMode env ANGLE_MODE then
    errorAngle * cfg.levelGain
  else
    let horizonLevelStrength := calcHorizonLevelStrength cfg env
    let racemodeInclination :=
      max |env.attitudeRaw Axis.roll| |env.attitudeRaw Axis.pitch| / 10
    if cfg.horizonTiltExpertMode then
      currentPidSetpoint + errorAngle * cfg.horizonGain * horizonLevelStrength
    else
      if racemodeInclination < (prof.levelAngleLimit : ℚ) then
        errorAngle * cfg.horizonGain
      else
        currentPidSetpoint + errorAngle * cfg.horizonGain * horizonLevelStrength

/-- accelerationLimit: clamp the setpoint change to ±maxVelocity and
    return (accepted setpoint, stored previous setpoint); the stored
    value is the accepted one. -/
def accelerationLimit (maxV previousSetpoint currentPidSetpoint : ℚ) : ℚ × ℚ :=
  let currentVelocity := currentPidSetpoint - previousSetpoint
  let accepted :=
    if |currentVelocity| > maxV then
      if currentVelocity > 0 then previousSetpoint + maxV
      else previousSetpoint - maxV
    else currentPidSetpoint
  (accepted, accepted)

/-- Setpoint after the acceleration-limit stage of the axis loop:
    getSetpointRate(axis), passed through accelerationLimit when the
    axis has non-zero maxVelocity. -/
def axisSetpointLimited (cfg : Config) (env : Env) (st : PidState)
    (a : Axis) : ℚ :=
  if cfg.maxVelocity.get a ≠ 0 then
    (accelerationLimit (cfg.maxVelocity.get a) (st.previousSetpoint.get a)
      (env.setpointRate a)).1
  else env.setpointRate a

/-- Setpoint after the leveling stage of the axis loop: pidLevel is
    applied for HORIZON_MODE only on roll (axis not yaw and not pitch)
    and for ANGLE_MODE on roll and pitch (axis not yaw). -/
def axisSetpointLeveled (cfg : Config) (prof : pidProfile) (env : Env)
    (st : PidState) (a : Axis) : ℚ :=
  let sp1 := axisSetpointLimited cfg env st a
  let sp2 :=
    if flightMode env HORIZON_MODE = true ∧ a ≠ Axis.yaw ∧ a ≠ Axis.pitch then
      pidLevel cfg prof env a sp1
    else sp1
  if flightMode env ANGLE_MODE = true ∧ a ≠ Axis.yaw then
    pidLevel cfg prof env a sp2
  else sp2

/-- Values live at the end of the crash-recovery override block of
    pidController (lines 458-493): possibly rewritten setpoint and
    error rate, the integral accumulator for the axis (zeroed while
    recovery is active), and the possibly-updated recovery flag. -/
structure OverrideOut : Type where
  sp : ℚ
  err : ℚ
  iTerm : ℚ
  inCrash : Bool

/-- Crash-recovery override block of pidController: active when in
    recovery and past the entry delay; clamps yaw error, re-levels
    roll/pitch from attitude when an accelerometer is present, zeroes
    the integral accumulator, and applies the recovery exit checks. -/
def crashOverride (cfg : Config) (env : Env) (st : PidState) (a : Axis)
    (sp err : ℚ) : OverrideOut :=
  if st.inCrashRecoveryMode = true ∧
      cmpTimeUs env.currentTimeUs st.crashDetectedAtUs > cfg.crashTimeDelayUs then
    let spErr :=
      if a = Axis.yaw then
        (sp, constrainf err (-cfg.crashLimitYaw) cfg.crashLimitYaw)
      else
        if env.sensorAcc then
          let errorAngle := -(env.attitudeRaw a - env.angleTrimRaw a) / 10
          let sp2 := errorAngle * cfg.levelGain
          (sp2, sp2 - env.gyroADCf a)
        else (sp, err)
    let inCrash1 :=
      if cmpTimeUs env.currentTimeUs st.crashDetectedAtUs > cfg.crashTimeLimitUs
          ∨ (env.motorMixRange < 1
             ∧ |env.gyroADCf Axis.roll| < cfg.crashRecoveryRate
             ∧ |env.gyroADCf Axis.pitch| < cfg.crashRecoveryRate
             ∧ |env.gyroADCf Axis.yaw| < cfg.crashRecoveryRate) then
        if env.sensorAcc then
          if |env.attitudeRaw Axis.roll - env.angleTrimRaw Axis.roll| <
               (cfg.crashRecoveryAngleDeciDegrees : ℚ)
             ∧ |env.attitudeRaw Axis.pitch - env.angleTrimRaw Axis.pitch| <
               (cfg.crashRecoveryAngleDeciDegrees : ℚ) then
            false
          else st.inCrashRecoveryMode
        else false
      else st.inCrashRecoveryMode
    ⟨spErr.1, spErr.2, 0, inCrash1⟩
  else
    ⟨sp, err, st.axisPID_I.get a, st.inCrashRecoveryMode⟩

/-- Crash-detection block of pidController (lines 528-546), run only
    on roll and pitch: entry when armed, saturated, spiking and nearly
    uncommanded; early abort within the delay window; exit on disarm.
    Returns the new (inCrashRecoveryMode, crashDetectedAtUs). -/
def crashDetection (cfg : Config) (prof : pidProfile) (env : Env) (a : Axis)
    (delta err : ℚ) (inCrash : Bool) (detectedAt : ℕ) : Bool × ℕ :=
  if prof.crash_recovery ≠ 0 ∧ env.gyroOverflowDetected = false then
    if env.armed = true then
      let entry :=
        if env.motorMixRange ≥ 1 ∧ inCrash = false
            ∧ |delta| > cfg.crashDtermThreshold
            ∧ |err| > cfg.crashGyroThreshold
            ∧ |env.setpointRate a| < cfg.crashSetpointThreshold then
          ((true : Bool), env.currentTimeUs)
        else (inCrash, detectedAt)
      if entry.1 = true ∧ cmpTimeUs env.currentTimeUs entry.2 < cfg.crashTimeDelayUs
          ∧ (|err| < cfg.crashGyroThreshold
             ∨ |env.setpointRate a| > cfg.crashSetpointThreshold) then
        ((false : Bool), entry.2)
      else entry
    else
      if inCrash = true then ((false : Bool), detectedAt)
      else (inCrash, detectedAt)
  else (inCrash, detectedAt)

/-- rD of the derivative path, as computed in pidController for
    roll/pitch (with the setpoint value live at that point). -/
def axisRD (cfg : Config) (env : Env) (dynCd : ℚ) (a : Axis) (sp : ℚ) : ℚ :=
  dynCd * min (env.rcDeflectionAbs a * cfg.relaxFactor) 1 * sp -
    env.dtermLpfApply a (env.dtermNotchApply a (env.gyroADCf a))

/-- One iteration of the per-axis loop body of pidController. -/
def pidAxisStep (cfg : Config) (prof : pidProfile) (env : Env)
    (deltaT dynCi dynCd : ℚ) (st : PidState) (a : Axis) : PidState :=
  let sp := axisSetpointLeveled cfg prof env st a
  let previousSetpoint1 :=
    if cfg.maxVelocity.get a ≠ 0 then
      st.previousSetpoint.set a
        (accelerationLimit (cfg.maxVelocity.get a) (st.previousSetpoint.get a)
          (env.setpointRate a)).2
    else st.previousSetpoint
  let gyroRate := env.gyroADCf a
  let ov := crashOverride cfg env st a sp (sp - gyroRate)
  let p0 := cfg.Kp.get a * ov.err * env.tpaFactor
  let axisP := if a = Axis.yaw then env.ptermYawApply p0 else p0
  let iTermNew := constrainf (ov.iTerm + cfg.Ki.get a * ov.err * dynCi)
    (-cfg.itermLimit) cfg.itermLimit
  let saturated := env.outputSaturated a ov.err
  let axisI := if saturated = false ∨ |iTermNew| < |ov.iTerm| then iTermNew
    else ov.iTerm
  let zeroOut : Bool := !cfg.pidStabilisationEnabled || env.gyroOverflowDetected
  if a = Axis.yaw then
    let axisSum := axisP + axisI
    { st with
      axisPID_P := st.axisPID_P.set a (if zeroOut then 0 else axisP)
      axisPID_I := st.axisPID_I.set a (if zeroOut then 0 else axisI)
      axisPID_D := if zeroOut then st.axisPID_D.set a 0 else st.axisPID_D
      axisPIDSum := st.axisPIDSum.set a (if zeroOut then 0 else axisSum)
      previousSetpoint := previousSetpoint1
      inCrashRecoveryMode := ov.inCrash }
  else
    let rD := axisRD cfg env dynCd a ov.sp
    let delta := (rD - st.previousRateError.get a) / deltaT
    let detect := crashDetection cfg prof env a delta ov.err ov.inCrash
      st.crashDetectedAtUs
    let axisD := cfg.Kd.get a * delta * env.tpaFactor
    let axisSum := axisP + axisI + axisD
    { st with
      axisPID_P := st.axisPID_P.set a (if zeroOut then 0 else axisP)
      axisPID_I := st.axisPID_I.set a (if zeroOut then 0 else axisI)
      axisPID_D := st.axisPID_D.set a (if zeroOut then 0 else axisD)
      axisPIDSum := st.axisPIDSum.set a (if zeroOut then 0 else axisSum)
      previousSetpoint := previousSetpoint1
      previousRateError := st.previousRateError.set a rD
      inCrashRecoveryMode := detect.1
      crashDetectedAtUs := detect.2 }

/-- pidController: one control tick over the three axes. -/
def pidController (cfg : Config) (prof : pidProfile) (env : Env)
    (st : PidState) : PidState :=
  let deltaT := (u32sub env.currentTimeUs st.previousTimeUs : ℚ) * (1 / 1000000)
  let st0 := { st with previousTimeUs := env.currentTimeUs }
  let dynCi := min ((1 - env.motorMixRange) * cfg.ITermWindupPointInv) 1 *
    cfg.dT * cfg.itermAccelerator
  let dynCd := if env.flightModeFlags ≠ 0 then 0 else cfg.dtermSetpointWeight
  let st1 := pidAxisStep cfg prof env deltaT dynCi dynCd st0 Axis.roll
  let st2 := pidAxisStep cfg prof env deltaT dynCi dynCd st1 Axis.pitch
  pidAxisStep cfg prof env deltaT dynCi dynCd st2 Axis.yaw

/-- Implementation selected for a filter stage: nullFilterApply is the
    identity pass-through; the others are the active kinds. -/
inductive FilterFn : Type
  | null
  | biquad
  | pt1
  | fir
deriving DecidableEq, Repr

/-- FILTER_PT1 enumerator of common/filter.h. -/
def FILTER_PT1 : ℕ := 0
/-- FILTER_BIQUAD enumerator of common/filter.h. -/
def FILTER_BIQUAD : ℕ := 1
/-- FILTER_FIR enumerator of common/filter.h. -/
def FILTER_FIR : ℕ := 2

/-- Outcome of pidInitFilters: which apply function each stage gets,
    and the (possibly clamped) notch centre frequency. -/
structure FilterChainSel : Type where
  dtermNotchFn : FilterFn
  dtermNotchHz : ℕ
  dtermLpfFn : FilterFn
  ptermYawFn : FilterFn
deriving DecidableEq, Repr

/-- pidInitFilters: select the filter implementation for each stage.
    pidFrequencyNyquist is (1/dT)/2 truncated to uint32, which for
    dT = looptime/10^6 is 500000 / looptime in integer division. -/
def pidInitFilters (prof : pidProfile) (targetPidLooptime : ℕ) : FilterChainSel :=
  if targetPidLooptime = 0 then
    ⟨FilterFn.null, 0, FilterFn.null, FilterFn.null⟩
  else
    let pidFrequencyNyquist : ℕ := 500000 / targetPidLooptime
    let dTermNotchHz : ℕ :=
      if prof.dterm_notch_hz ≤ pidFrequencyNyquist then prof.dterm_notch_hz
      else if prof.dterm_notch_cutoff < pidFrequencyNyquist then
        pidFrequencyNyquist
      else 0
    let notchFn :=
      if dTermNotchHz ≠ 0 ∧ prof.dterm_notch_cutoff ≠ 0 then FilterFn.biquad
      else FilterFn.null
    let lpfFn :=
      if prof.dterm_lpf_hz = 0 ∨ prof.dterm_lpf_hz > pidFrequencyNyquist then
        FilterFn.null
      else
        if prof.dterm_filter_type = FILTER_PT1 then FilterFn.pt1
        else if prof.dterm_filter_type = FILTER_BIQUAD then FilterFn.biquad
        else if prof.dterm_filter_type = FILTER_FIR then FilterFn.fir
        else FilterFn.null
    let yawFn :=
      if prof.yaw_lpf_hz = 0 ∨ prof.yaw_lpf_hz > pidFrequencyNyquist then
        FilterFn.null
      else FilterFn.pt1
    ⟨notchFn, dTermNotchHz, lpfFn, yawFn⟩

/-- Override-block outputs at the start of an axis iteration, with
    the setpoint and error rate the loop computes before the block. -/
def axisOv (cfg : Config) (prof : pidProfile) (env : Env) (st : PidState)
    (a : Axis) : OverrideOut :=
  crashOverride cfg env st a (axisSetpointLeveled cfg prof env st a)
    (axisSetpointLeveled cfg prof env st a - env.gyroADCf a)

/-- Derivative delta computed on a roll/pitch axis iteration. -/
def axisDelta (cfg : Config) (prof : pidProfile) (env : Env)
    (deltaT dynCd : ℚ) (st : PidState) (a : Axis) : ℚ :=
  (axisRD cfg env dynCd a (axisOv cfg prof env st a).sp -
    st.previousRateError.get a) / deltaT

/-! Concrete fixtures, used to evaluate the model on explicit inputs.
    prof0 is the default profile of resetPidProfile (with crash
    recovery switched on so that the crash state machine is live). -/

/-- Default profile values from resetPidProfile, with crash_recovery
    enabled. -/
def prof0 : pidProfile :=
  { pidRoll := ⟨40, 40, 30⟩
    pidPitch := ⟨58, 50, 35⟩
    pidYaw := ⟨70, 45, 20⟩
    pidLevel_ := ⟨50, 50, 75⟩
    yaw_lpf_hz := 0
    dterm_lpf_hz := 100
    dterm_notch_hz := 260
    dterm_notch_cutoff := 160
    dterm_filter_type := FILTER_BIQUAD
    itermWindupPointPercent := 50
    levelAngleLimit := 65
    setpointRelaxRatio := 100
    dtermSetpointWeight := 0
    yawRateAccelLimit := 100
    rateAccelLimit := 0
    crash_time := 500
    crash_delay := 0
    crash_recovery_angle := 10
    crash_recovery_rate := 100
    crash_dthreshold := 50
    crash_gthreshold := 400
    crash_setpoint_threshold := 350
    crash_recovery := 1
    horizon_tilt_effect := 130
    horizon_tilt_expert_mode := false
    crash_limit_yaw := 200
    itermLimit := 150 }

/-- Derived parameters for prof0 at a 1 kHz loop. -/
def cfg0 : Config := pidInitConfig prof0 (dTof 1000) 1 true

/-- Benign tick environment: level attitude, zero gyro, 100 deg/s
    commanded on every axis, armed, no faults, identity filters. -/
def env0 : Env :=
  { currentTimeUs := 1000
    tpaFactor := 1
    motorMixRange := 0
    setpointRate := fun _ => 100
    gyroADCf := fun _ => 0
    rcDeflection := fun _ => 0
    rcDeflectionAbs := fun _ => 0
    attitudeRaw := fun _ => 0
    angleTrimRaw := fun _ => 0
    gpsAngle := fun _ => 0
    flightModeFlags := 0
    armed := true
    gyroOverflowDetected := false
    sensorAcc := true
    outputSaturated := fun _ _ => false
    dtermNotchApply := fun _ x => x
    dtermLpfApply := fun _ x => x
    ptermYawApply := fun x => x }

/-- All-zero initial control state. -/
def st0 : PidState :=
  { axisPID_P := ⟨0, 0, 0⟩
    axisPID_I := ⟨0, 0, 0⟩
    axisPID_D := ⟨0, 0, 0⟩
    axisPIDSum := ⟨0, 0, 0⟩
    previousSetpoint := ⟨0, 0, 0⟩
    previousRateError := ⟨0, 0, 0⟩
    inCrashRecoveryMode := false
    crashDetectedAtUs := 0
    previousTimeUs := 0 }

/-- Profile with a non-zero roll/pitch acceleration limit. -/
def prof2w : pidProfile := { prof0 with rateAccelLimit := 1 }

/-- Expert-mode horizon configuration with a zero horizonTransition
    (pid[PID_LEVEL].D = 0) and positive cutoff, for C9. -/
def cfg9 : Config := { cfg0 with horizonTiltExpertMode := true, horizonTransition := 0 }

/-- Limited-horizon configuration whose levelGain and horizonGain
    differ, for C6. -/
def cfg6 : Config := { cfg0 with levelGain := 5, horizonGain := 7 }

/-- Horizon-mode environment with full roll stick deflection. -/
def env6h : Env := { env0 with flightModeFlags := HORIZON_MODE, rcDeflection := fun _ => 1 }

/-- Angle-mode environment, identical to env6h except for the mode
    flags. -/
def env6a : Env := { env0 with flightModeFlags := ANGLE_MODE, rcDeflection := fun _ => 1 }

/-- Profile whose D-term low-pass cutoff sits exactly at the Nyquist
    frequency of a 500 us loop (1000 Hz), selected as PT1. -/
def prof7 : pidProfile := { prof0 with dterm_lpf_hz := 1000, dterm_filter_type := FILTER_PT1 }

/-- Tick environment satisfying the crash-entry signature on every
    axis: saturated mix, large gyro rate against a near-zero command. -/
def env3 : Env :=
  { env0 with
    motorMixRange := 1
    gyroADCf := fun _ => 500
    setpointRate := fun _ => 0 }

/-- Profile with the crash-recovery feature switched off. -/
def prof8 : pidProfile := { prof0 with crash_recovery := 0 }

/-- Disarmed environment with a fully saturated mix. -/
def env8 : Env := { env0 with armed := false, motorMixRange := 1 }

/-- State latched in crash recovery. -/
def st8 : PidState := { st0 with inCrashRecoveryMode := true }

/-- Derived parameters with stabilisation disabled. -/
def cfgZ : Config := { cfg0 with pidStabilisationEnabled := false }

/-! Helper lemmas. -/

@[simp] theorem V3.get_set_self (v : V3) (a : Axis) (x : ℚ) :
    (v.set a x).get a = x := by
  cases a <;> rfl

@[simp] theorem V3.get_set_ne (v : V3) (a b : Axis) (x : ℚ) (h : b ≠ a) :
    (v.set a x).get b = v.get b := by
  cases a <;> cases b <;> first | rfl | exact absurd rfl h

theorem constrainf_le (amt low high : ℚ) (h : low ≤ high) :
    constrainf amt low high ≤ high := by
  unfold constrainf
  split
  · exact h
  · split
    · exact le_rfl
    · exact le_of_not_gt (by assumption)

theorem le_constrainf (amt low high : ℚ) (h : low ≤ high) :
    low ≤ constrainf amt low high := by
  unfold constrainf
  split
  · exact le_rfl
  · split
    · exact h
    · exact le_of_not_lt (by assumption)

theorem abs_constrainf_le (amt l : ℚ) (h : 0 ≤ l) :
    |constrainf amt (-l) l| ≤ l := by
  have h1 : -l ≤ l := by linarith
  exact abs_le.mpr ⟨le_constrainf amt (-l) l h1, constrainf_le amt (-l) l h1⟩

theorem accelerationLimit_abs_le (maxV prev req : ℚ) (h : 0 ≤ maxV) :
    |(accelerationLimit maxV prev req).1 - prev| ≤ maxV := by
  unfold accelerationLimit
  dsimp only
  split
  · split
    · have he : prev + maxV - prev = maxV := by ring
      rw [he, abs_of_nonneg h]
    · have he : prev - maxV - prev = -maxV := by ring
      rw [he, abs_neg, abs_of_nonneg h]
  · exact le_of_not_gt (by assumption)

theorem pidInitConfig_maxVelocity_nonneg (prof : pidProfile) (lt : ℕ)
    (ia : ℚ) (stab : Bool) (a : Axis) :
    0 ≤ (pidInitConfig prof (dTof lt) ia stab).maxVelocity.get a := by
  cases a <;> simp only [pidInitConfig, V3.get, dTof] <;> positivity

theorem pidAxisStep_previousSetpoint (cfg : Config) (prof : pidProfile)
    (env : Env) (st : PidState) (a : Axis) (deltaT dynCi dynCd : ℚ)
    (h : cfg.maxVelocity.get a ≠ 0) :
    (pidAxisStep cfg prof env deltaT dynCi dynCd st a).previousSetpoint.get a =
      (accelerationLimit (cfg.maxVelocity.get a) (st.previousSetpoint.get a)
        (env.setpointRate a)).1 := by
  unfold pidAxisStep
  split
  · split <;> simp [accelerationLimit]
  · exact absurd h (by assumption)

/-- C2: for an axis whose derived maxVelocity is non-zero, the
    setpoint accepted by accelerationLimit differs from the previous
    accepted setpoint by at most maxVelocity, the function stores the
    accepted value as the new previous setpoint, and the per-axis tick
    records exactly that stored value. -/
theorem accelerationLimit_velocity_bound (prof : pidProfile) (lt : ℕ)
    (ia : ℚ) (stab : Bool) (env : Env) (st : PidState) (a : Axis)
    (deltaT dynCi dynCd : ℚ)
    (h : (pidInitConfig prof (dTof lt) ia stab).maxVelocity.get a ≠ 0) :
    |(accelerationLimit ((pidInitConfig prof (dTof lt) ia stab).maxVelocity.get a)
        (st.previousSetpoint.get a) (env.setpointRate a)).1 -
        st.previousSetpoint.get a| ≤
      (pidInitConfig prof (dTof lt) ia stab).maxVelocity.get a ∧
    (accelerationLimit ((pidInitConfig prof (dTof lt) ia stab).maxVelocity.get a)
        (st.previousSetpoint.get a) (env.setpointRate a)).2 =
      (accelerationLimit ((pidInitConfig prof (dTof lt) ia stab).maxVelocity.get a)
        (st.previousSetpoint.get a) (env.setpointRate a)).1 ∧
    (pidAxisStep (pidInitConfig prof (dTof lt) ia stab) prof env deltaT dynCi
        dynCd st a).previousSetpoint.get a =
      (accelerationLimit ((pidInitConfig prof (dTof lt) ia stab).maxVelocity.get a)
        (st.previousSetpoint.get a) (env.setpointRate a)).1 := by
  refine ⟨accelerationLimit_abs_le _ _ _
    (pidInitConfig_maxVelocity_nonneg prof lt ia stab a), rfl, ?_⟩
  exact pidAxisStep_previousSetpoint _ prof env st a deltaT dynCi dynCd h

theorem accelerationLimit_velocity_bound_witness :
    (pidInitConfig prof2w (dTof 1000000) 1 true).maxVelocity.get Axis.roll ≠ 0 ∧
    (|(accelerationLimit ((pidInitConfig prof2w (dTof 1000000) 1 true).maxVelocity.get Axis.roll)
        (st0.previousSetpoint.get Axis.roll) (env0.setpointRate Axis.roll)).1 -
        st0.previousSetpoint.get Axis.roll| ≤
      (pidInitConfig prof2w (dTof 1000000) 1 true).maxVelocity.get Axis.roll ∧
    (accelerationLimit ((pidInitConfig prof2w (dTof 1000000) 1 true).maxVelocity.get Axis.roll)
        (st0.previousSetpoint.get Axis.roll) (env0.setpointRate Axis.roll)).2 =
      (accelerationLimit ((pidInitConfig prof2w (dTof 1000000) 1 true).maxVelocity.get Axis.roll)
        (st0.previousSetpoint.get Axis.roll) (env0.setpointRate Axis.roll)).1 ∧
    (pidAxisStep (pidInitConfig prof2w (dTof 1000000) 1 true) prof2w env0 0 0
        0 st0 Axis.roll).previousSetpoint.get Axis.roll =
      (accelerationLimit ((pidInitConfig prof2w (dTof 1000000) 1 true).maxVelocity.get Axis.roll)
        (st0.previousSetpoint.get Axis.roll) (env0.setpointRate Axis.roll)).1) :=
  ⟨by decide,
   accelerationLimit_velocity_bound prof2w 1000000 1 true env0 st0 Axis.roll
     0 0 0 (by decide)⟩

theorem constrainf_idem (x : ℚ) :
    constrainf (constrainf x 0 1) 0 1 = constrainf x 0 1 := by
  unfold constrainf
  split_ifs <;> first | rfl | linarith

/-- C9 counterexample: in the expert sub-mode with horizonTransition
    equal to zero and a positive cutoff, the code returns strength 0
    whereas the claimed formula clamp((cutoff - inclination)/cutoff, 0, 1)
    returns 1. -/
theorem calcHorizonLevelStrength_claim_counterexample :
    calcHorizonLevelStrength cfg9 env0 = 0 ∧
    cfg9.horizonTiltExpertMode = true ∧
    0 < cfg9.horizonCutoffDegrees ∧
    constrainf ((cfg9.horizonCutoffDegrees - currentInclination env0) /
      cfg9.horizonCutoffDegrees) 0 1 = 1 := by decide

/-- C9 amended: calcHorizonLevelStrength equals the claimed clamp
    formulas, except that the expert sub-mode additionally requires
    horizonTransition > 0 (returning 0 otherwise); in either sub-mode
    a non-positive cutoff gives strength 0. -/
theorem calcHorizonLevelStrength_spec (cfg : Config) (env : Env) :
    calcHorizonLevelStrength cfg env =
      if cfg.horizonTiltExpertMode then
        if 0 < cfg.horizonTransition ∧ 0 < cfg.horizonCutoffDegrees then
          constrainf ((cfg.horizonCutoffDegrees - currentInclination env) /
            cfg.horizonCutoffDegrees) 0 1
        else 0
      else
        if 0 < cfg.horizonCutoffDegrees then
          constrainf (2 * (cfg.horizonCutoffDegrees - currentInclination env) /
            cfg.horizonCutoffDegrees) 0 1
        else 0 := by
  have harg : ((cfg.horizonCutoffDegrees - currentInclination env) * 2) /
      cfg.horizonCutoffDegrees =
      2 * (cfg.horizonCutoffDegrees - currentInclination env) /
      cfg.horizonCutoffDegrees := by
    ring
  unfold calcHorizonLevelStrength
  cases hE : cfg.horizonTiltExpertMode
  · simp only [hE, Bool.false_eq_true, if_false]
    by_cases hc : 0 < cfg.horizonCutoffDegrees
    · rw [if_pos hc, if_pos hc, harg]
      exact constrainf_idem _
    · rw [if_neg hc, if_neg hc]
      norm_num [constrainf]
  · simp only [hE, if_true]
    by_cases hc : 0 < cfg.horizonTransition ∧ 0 < cfg.horizonCutoffDegrees
    · rw [if_pos hc]
      exact constrainf_idem _
    · rw [if_neg hc]
      norm_num [constrainf]

/-- C6 counterexample: with horizon mode active, expert mode off,
    level attitude (inclination 0, below the 65 degree limit) and
    distinct levelGain (5) and horizonGain (7), pidLevel returns
    errorAngle * horizonGain = 455, which is neither
    errorAngle * levelGain = 325 nor what angle mode returns on the
    same inputs (env6a differs from env6h only in the mode flags). -/
theorem pidLevel_limited_counterexample :
    currentInclination env6h < (prof0.levelAngleLimit : ℚ) ∧
    cfg6.horizonTiltExpertMode = false ∧
    pidLevel cfg6 prof0 env6h Axis.roll 123 ≠
      errorAngleOf prof0 env6h Axis.roll * cfg6.levelGain ∧
    pidLevel cfg6 prof0 env6h Axis.roll 123 ≠
      pidLevel cfg6 prof0 env6a Axis.roll 123 := by decide

/-- C6 amended: in the limited horizon sub-mode (expert off), below
    the configured levelAngleLimit pidLevel returns
    errorAngle * horizonGain, ignoring the raw setpoint (angle-mode
    shaped but with the horizon gain, so it agrees with angle mode
    exactly when horizonGain = levelGain); at or beyond the limit it
    blends rawSetpoint + errorAngle * horizonGain * strength. -/
theorem pidLevel_limited_spec (cfg : Config) (prof : pidProfile) (env : Env)
    (a : Axis) (sp : ℚ)
    (hA : flightMode env ANGLE_MODE = false)
    (hE : cfg.horizonTiltExpertMode = false) :
    (currentInclination env < (prof.levelAngleLimit : ℚ) →
      pidLevel cfg prof env a sp = errorAngleOf prof env a * cfg.horizonGain) ∧
    ((prof.levelAngleLimit : ℚ) ≤ currentInclination env →
      pidLevel cfg prof env a sp =
        sp + errorAngleOf prof env a * cfg.horizonGain *
          calcHorizonLevelStrength cfg env) := by
  unfold pidLevel
  rw [hA, hE]
  constructor <;> intro h <;> unfold currentInclination at h <;>
    simp only [Bool.false_eq_true, if_false] <;>
    split_ifs <;> first | rfl | linarith

theorem pidLevel_limited_spec_witness :
    flightMode env6h ANGLE_MODE = false ∧
    cfg6.horizonTiltExpertMode = false ∧
    ((currentInclination env6h < (prof0.levelAngleLimit : ℚ) →
      pidLevel cfg6 prof0 env6h Axis.roll 123 =
        errorAngleOf prof0 env6h Axis.roll * cfg6.horizonGain) ∧
    ((prof0.levelAngleLimit : ℚ) ≤ currentInclination env6h →
      pidLevel cfg6 prof0 env6h Axis.roll 123 =
        123 + errorAngleOf prof0 env6h Axis.roll * cfg6.horizonGain *
          calcHorizonLevelStrength cfg6 env6h)) :=
  ⟨by decide, by decide,
   pidLevel_limited_spec cfg6 prof0 env6h Axis.roll 123 (by decide) (by decide)⟩

/-- C7 counterexample: at a 500 us loop the Nyquist frequency is
    exactly 1000 Hz = 0.5/dT; a D-term low-pass configured at 1000 Hz,
    i.e. at (hence greater than or equal to) Nyquist, is installed as
    an active PT1 filter rather than the identity, because the code
    disables the stage only for cutoffs strictly above the truncated
    Nyquist value. -/
theorem pidInitFilters_nyquist_counterexample :
    (pidInitFilters prof7 500).dtermLpfFn = FilterFn.pt1 ∧
    FilterFn.pt1 ≠ FilterFn.null ∧
    (prof7.dterm_lpf_hz : ℚ) ≥ 1 / 2 / dTof 500 := by decide

/-- C7 amended: for any profile and non-zero loop time, every stage
    that pidInitFilters installs as active has its cutoff (for the
    notch: its possibly clamped centre frequency) non-zero and at most
    the Nyquist frequency 0.5/dT; a cutoff exactly at the truncated
    Nyquist value remains active, so the bound is inclusive rather
    than strict. -/
theorem pidInitFilters_nyquist (prof : pidProfile) (lt : ℕ) (h : lt ≠ 0) :
    ((pidInitFilters prof lt).dtermLpfFn ≠ FilterFn.null →
      prof.dterm_lpf_hz ≠ 0 ∧ (prof.dterm_lpf_hz : ℚ) ≤ 1 / 2 / dTof lt) ∧
    ((pidInitFilters prof lt).ptermYawFn ≠ FilterFn.null →
      prof.yaw_lpf_hz ≠ 0 ∧ (prof.yaw_lpf_hz : ℚ) ≤ 1 / 2 / dTof lt) ∧
    ((pidInitFilters prof lt).dtermNotchFn ≠ FilterFn.null →
      (pidInitFilters prof lt).dtermNotchHz ≠ 0 ∧
        ((pidInitFilters prof lt).dtermNotchHz : ℚ) ≤ 1 / 2 / dTof lt) := by
  have hlt0 : (lt : ℚ) ≠ 0 := Nat.cast_ne_zero.mpr h
  have h2 : (500000 : ℚ) / (lt : ℚ) = 1 / 2 / dTof lt := by
    rw [dTof]
    field_simp
    ring
  have hq : ((500000 / lt : ℕ) : ℚ) ≤ 1 / 2 / dTof lt := by
    rw [← h2]
    exact Nat.cast_div_le
  have hcast : ∀ n : ℕ, n ≤ 500000 / lt → (n : ℚ) ≤ 1 / 2 / dTof lt :=
    fun n hn => le_trans (by exact_mod_cast Nat.cast_le.mpr hn) hq
  simp only [pidInitFilters, h, if_false]
  refine ⟨?_, ?_, ?_⟩
  · intro hact
    by_cases hc : prof.dterm_lpf_hz = 0 ∨ prof.dterm_lpf_hz > 500000 / lt
    · rw [if_pos hc] at hact
      exact absurd rfl hact
    · push_neg at hc
      exact ⟨hc.1, hcast _ hc.2⟩
  · intro hact
    by_cases hc : prof.yaw_lpf_hz = 0 ∨ prof.yaw_lpf_hz > 500000 / lt
    · rw [if_pos hc] at hact
      exact absurd rfl hact
    · push_neg at hc
      exact ⟨hc.1, hcast _ hc.2⟩
  · intro hact
    by_cases hc : (if prof.dterm_notch_hz ≤ 500000 / lt then prof.dterm_notch_hz
        else if prof.dterm_notch_cutoff < 500000 / lt then 500000 / lt
        else 0) ≠ 0 ∧ prof.dterm_notch_cutoff ≠ 0
    · have hbnd : (if prof.dterm_notch_hz ≤ 500000 / lt then prof.dterm_notch_hz
          else if prof.dterm_notch_cutoff < 500000 / lt then 500000 / lt
          else 0) ≤ 500000 / lt := by
        split_ifs with h1 h2
        · exact h1
        · exact le_rfl
        · exact Nat.zero_le _
      exact ⟨hc.1, hcast _ hbnd⟩
    · rw [if_neg hc] at hact
      exact absurd rfl hact

theorem pidInitFilters_nyquist_witness :
    (1000 : ℕ) ≠ 0 ∧
    (((pidInitFilters prof0 1000).dtermLpfFn ≠ FilterFn.null →
      prof0.dterm_lpf_hz ≠ 0 ∧ (prof0.dterm_lpf_hz : ℚ) ≤ 1 / 2 / dTof 1000) ∧
    ((pidInitFilters prof0 1000).ptermYawFn ≠ FilterFn.null →
      prof0.yaw_lpf_hz ≠ 0 ∧ (prof0.yaw_lpf_hz : ℚ) ≤ 1 / 2 / dTof 1000) ∧
    ((pidInitFilters prof0 1000).dtermNotchFn ≠ FilterFn.null →
      (pidInitFilters prof0 1000).dtermNotchHz ≠ 0 ∧
        ((pidInitFilters prof0 1000).dtermNotchHz : ℚ) ≤ 1 / 2 / dTof 1000)) :=
  ⟨by decide, pidInitFilters_nyquist prof0 1000 (by decide)⟩

/-! Characterization lemmas for the axis step. -/

theorem crashOverride_notCrash (cfg : Config) (prof : pidProfile) (env : Env)
    (st : PidState) (a : Axis) (h : st.inCrashRecoveryMode = false) :
    axisOv cfg prof env st a =
      ⟨axisSetpointLeveled cfg prof env st a,
       axisSetpointLeveled cfg prof env st a - env.gyroADCf a,
       st.axisPID_I.get a, false⟩ := by
  unfold axisOv crashOverride
  rw [if_neg]
  · rw [h]
  · rintro ⟨h1, -⟩
    rw [h] at h1
    exact absurd h1 (by decide)

theorem pidAxisStep_I_get (cfg : Config) (prof : pidProfile) (env : Env)
    (deltaT dynCi dynCd : ℚ) (st : PidState) (a : Axis) :
    (pidAxisStep cfg prof env deltaT dynCi dynCd st a).axisPID_I.get a =
      if (!cfg.pidStabilisationEnabled || env.gyroOverflowDetected) = true then 0
      else if env.outputSaturated a (axisOv cfg prof env st a).err = false ∨
          |constrainf ((axisOv cfg prof env st a).iTerm +
              cfg.Ki.get a * (axisOv cfg prof env st a).err * dynCi)
            (-cfg.itermLimit) cfg.itermLimit| <
            |(axisOv cfg prof env st a).iTerm| then
        constrainf ((axisOv cfg prof env st a).iTerm +
            cfg.Ki.get a * (axisOv cfg prof env st a).err * dynCi)
          (-cfg.itermLimit) cfg.itermLimit
      else (axisOv cfg prof env st a).iTerm := by
  unfold pidAxisStep axisOv
  by_cases hy : a = Axis.yaw <;> simp [hy]

theorem pidAxisStep_inCrash (cfg : Config) (prof : pidProfile) (env : Env)
    (deltaT dynCi dynCd : ℚ) (st : PidState) (a : Axis) :
    (pidAxisStep cfg prof env deltaT dynCi dynCd st a).inCrashRecoveryMode =
      if a = Axis.yaw then (axisOv cfg prof env st a).inCrash
      else (crashDetection cfg prof env a
        (axisDelta cfg prof env deltaT dynCd st a)
        (axisOv cfg prof env st a).err (axisOv cfg prof env st a).inCrash
        st.crashDetectedAtUs).1 := by
  by_cases hy : a = Axis.yaw <;> simp [pidAxisStep, axisDelta, axisOv, hy]

theorem pidAxisStep_crashDetectedAt (cfg : Config) (prof : pidProfile)
    (env : Env) (deltaT dynCi dynCd : ℚ) (st : PidState) (a : Axis) :
    (pidAxisStep cfg prof env deltaT dynCi dynCd st a).crashDetectedAtUs =
      if a = Axis.yaw then st.crashDetectedAtUs
      else (crashDetection cfg prof env a
        (axisDelta cfg prof env deltaT dynCd st a)
        (axisOv cfg prof env st a).err (axisOv cfg prof env st a).inCrash
        st.crashDetectedAtUs).2 := by
  by_cases hy : a = Axis.yaw <;> simp [pidAxisStep, axisDelta, axisOv, hy]

theorem pidAxisStep_P_ne (cfg : Config) (prof : pidProfile) (env : Env)
    (deltaT dynCi dynCd : ℚ) (st : PidState) (a b : Axis) (hb : b ≠ a) :
    (pidAxisStep cfg prof env deltaT dynCi dynCd st a).axisPID_P.get b =
      st.axisPID_P.get b := by
  unfold pidAxisStep
  by_cases hy : a = Axis.yaw
  · subst hy
    simp [V3.get_set_ne _ _ _ _ hb]
  · simp [hy, V3.get_set_ne _ _ _ _ hb]

theorem pidAxisStep_I_ne (cfg : Config) (prof : pidProfile) (env : Env)
    (deltaT dynCi dynCd : ℚ) (st : PidState) (a b : Axis) (hb : b ≠ a) :
    (pidAxisStep cfg prof env deltaT dynCi dynCd st a).axisPID_I.get b =
      st.axisPID_I.get b := by
  unfold pidAxisStep
  by_cases hy : a = Axis.yaw
  · subst hy
    simp [V3.get_set_ne _ _ _ _ hb]
  · simp [hy, V3.get_set_ne _ _ _ _ hb]

theorem pidAxisStep_D_ne (cfg : Config) (prof : pidProfile) (env : Env)
    (deltaT dynCi dynCd : ℚ) (st : PidState) (a b : Axis) (hb : b ≠ a) :
    (pidAxisStep cfg prof env deltaT dynCi dynCd st a).axisPID_D.get b =
      st.axisPID_D.get b := by
  unfold pidAxisStep
  by_cases hy : a = Axis.yaw
  · subst hy
    rw [if_pos rfl]
    dsimp only
    split <;> simp [V3.get_set_ne _ _ _ _ hb]
  · simp [hy, V3.get_set_ne _ _ _ _ hb]

theorem pidAxisStep_Sum_ne (cfg : Config) (prof : pidProfile) (env : Env)
    (deltaT dynCi dynCd : ℚ) (st : PidState) (a b : Axis) (hb : b ≠ a) :
    (pidAxisStep cfg prof env deltaT dynCi dynCd st a).axisPIDSum.get b =
      st.axisPIDSum.get b := by
  unfold pidAxisStep
  by_cases hy : a = Axis.yaw
  · subst hy
    simp [V3.get_set_ne _ _ _ _ hb]
  · simp [hy, V3.get_set_ne _ _ _ _ hb]

theorem pidAxisStep_zeroOut (cfg : Config) (prof : pidProfile) (env : Env)
    (deltaT dynCi dynCd : ℚ) (st : PidState) (a : Axis)
    (h : (!cfg.pidStabilisationEnabled || env.gyroOverflowDetected) = true) :
    (pidAxisStep cfg prof env deltaT dynCi dynCd st a).axisPID_P.get a = 0 ∧
    (pidAxisStep cfg prof env deltaT dynCi dynCd st a).axisPID_I.get a = 0 ∧
    (pidAxisStep cfg prof env deltaT dynCi dynCd st a).axisPID_D.get a = 0 ∧
    (pidAxisStep cfg prof env deltaT dynCi dynCd st a).axisPIDSum.get a = 0 := by
  unfold pidAxisStep
  by_cases hy : a = Axis.yaw <;> simp [hy, h]

/-- Behaviour of the crash-detection block when entered in the Normal
    state: it transitions to Recovering exactly under the entry
    conditions, recording the current time, and the early-abort check
    can never undo an entry made in the same iteration. -/
theorem crashDetection_from_false (cfg : Config) (prof : pidProfile)
    (env : Env) (a : Axis) (delta err : ℚ) (t0 : ℕ) :
    ((crashDetection cfg prof env a delta err false t0).1 = true ↔
      (prof.crash_recovery ≠ 0 ∧ env.gyroOverflowDetected = false ∧
        env.armed = true ∧ env.motorMixRange ≥ 1 ∧
        |delta| > cfg.crashDtermThreshold ∧ |err| > cfg.crashGyroThreshold ∧
        |env.setpointRate a| < cfg.crashSetpointThreshold)) ∧
    ((crashDetection cfg prof env a delta err false t0).1 = true →
      (crashDetection cfg prof env a delta err false t0).2 = env.currentTimeUs) := by
  unfold crashDetection
  by_cases h0 : prof.crash_recovery ≠ 0 ∧ env.gyroOverflowDetected = false
  · rw [if_pos h0]
    by_cases h1 : env.armed = true
    · rw [if_pos h1]
      dsimp only
      by_cases h2 : env.motorMixRange ≥ 1 ∧ (false : Bool) = false ∧
          |delta| > cfg.crashDtermThreshold ∧ |err| > cfg.crashGyroThreshold ∧
          |env.setpointRate a| < cfg.crashSetpointThreshold
      · rw [if_pos h2]
        dsimp only
        have habort : ¬(((true : Bool) = true) ∧
            cmpTimeUs env.currentTimeUs env.currentTimeUs < cfg.crashTimeDelayUs ∧
            (|err| < cfg.crashGyroThreshold ∨
              |env.setpointRate a| > cfg.crashSetpointThreshold)) := by
          rintro ⟨-, -, hd | hd⟩
          · linarith [h2.2.2.2.1]
          · linarith [h2.2.2.2.2]
        rw [if_neg habort]
        exact ⟨⟨fun _ => ⟨h0.1, h0.2, h1, h2.1, h2.2.2.1, h2.2.2.2.1, h2.2.2.2.2⟩,
          fun _ => rfl⟩, fun _ => rfl⟩
      · rw [if_neg h2]
        dsimp only
        have habort : ¬(((false : Bool) = true) ∧
            cmpTimeUs env.currentTimeUs t0 < cfg.crashTimeDelayUs ∧
            (|err| < cfg.crashGyroThreshold ∨
              |env.setpointRate a| > cfg.crashSetpointThreshold)) := by
          rintro ⟨hfalse, -⟩
          exact absurd hfalse (by decide)
        rw [if_neg habort]
        refine ⟨⟨fun hfalse => Bool.noConfusion hfalse, fun hr => ?_⟩,
          fun hfalse => Bool.noConfusion hfalse⟩
        exact absurd ⟨hr.2.2.2.1, rfl, hr.2.2.2.2.1, hr.2.2.2.2.2.1,
          hr.2.2.2.2.2.2⟩ h2
    · rw [if_neg h1]
      rw [if_neg (show ¬((false : Bool) = true) by decide)]
      exact ⟨⟨fun hfalse => Bool.noConfusion hfalse,
        fun hr => absurd hr.2.2.1 h1⟩, fun hfalse => Bool.noConfusion hfalse⟩
  · rw [if_neg h0]
    exact ⟨⟨fun hfalse => Bool.noConfusion hfalse,
      fun hr => absurd ⟨hr.1, hr.2.1⟩ h0⟩, fun hfalse => Bool.noConfusion hfalse⟩

/-- C5: with no crash recovery active on entry (so the accumulator
    read is the prior per-axis value) and with the end-of-tick zeroing
    not firing (stabilisation on, no gyro overflow), the integral
    update replaces the accumulator by the clamped candidate exactly
    when the output is not saturated for the axis or the candidate
    magnitude shrinks; when saturated and not shrinking the
    accumulator is left exactly unchanged. -/
theorem iterm_antiwindup (cfg : Config) (prof : pidProfile) (env : Env)
    (deltaT dynCi dynCd : ℚ) (st : PidState) (a : Axis)
    (hcr : st.inCrashRecoveryMode = false)
    (hstab : cfg.pidStabilisationEnabled = true)
    (hov : env.gyroOverflowDetected = false) :
    ((env.outputSaturated a (axisSetpointLeveled cfg prof env st a - env.gyroADCf a) = false ∨
        |constrainf (st.axisPID_I.get a + cfg.Ki.get a *
            (axisSetpointLeveled cfg prof env st a - env.gyroADCf a) * dynCi)
          (-cfg.itermLimit) cfg.itermLimit| < |st.axisPID_I.get a|) →
      (pidAxisStep cfg prof env deltaT dynCi dynCd st a).axisPID_I.get a =
        constrainf (st.axisPID_I.get a + cfg.Ki.get a *
            (axisSetpointLeveled cfg prof env st a - env.gyroADCf a) * dynCi)
          (-cfg.itermLimit) cfg.itermLimit) ∧
    (env.outputSaturated a (axisSetpointLeveled cfg prof env st a - env.gyroADCf a) = true →
      ¬(|constrainf (st.axisPID_I.get a + cfg.Ki.get a *
            (axisSetpointLeveled cfg prof env st a - env.gyroADCf a) * dynCi)
          (-cfg.itermLimit) cfg.itermLimit| < |st.axisPID_I.get a|) →
      (pidAxisStep cfg prof env deltaT dynCi dynCd st a).axisPID_I.get a =
        st.axisPID_I.get a) := by
  have ho := crashOverride_notCrash cfg prof env st a hcr
  rw [pidAxisStep_I_get, ho]
  dsimp only
  simp only [hstab, hov, Bool.not_true, Bool.or_false, Bool.false_eq_true,
    if_false]
  constructor
  · intro h
    rw [if_pos h]
  · intro hsat hlt
    have hcond : ¬(env.outputSaturated a
        (axisSetpointLeveled cfg prof env st a - env.gyroADCf a) = false ∨
        |constrainf (st.axisPID_I.get a + cfg.Ki.get a *
            (axisSetpointLeveled cfg prof env st a - env.gyroADCf a) * dynCi)
          (-cfg.itermLimit) cfg.itermLimit| < |st.axisPID_I.get a|) := by
      rintro (hc | hc)
      · rw [hsat] at hc
        exact absurd hc (by decide)
      · exact hlt hc
    rw [if_neg hcond]

theorem iterm_antiwindup_witness :
    st0.inCrashRecoveryMode = false ∧ cfg0.pidStabilisationEnabled = true ∧
    env0.gyroOverflowDetected = false ∧
    (((env0.outputSaturated Axis.roll (axisSetpointLeveled cfg0 prof0 env0 st0 Axis.roll - env0.gyroADCf Axis.roll) = false ∨
        |constrainf (st0.axisPID_I.get Axis.roll + cfg0.Ki.get Axis.roll *
            (axisSetpointLeveled cfg0 prof0 env0 st0 Axis.roll - env0.gyroADCf Axis.roll) * 1)
          (-cfg0.itermLimit) cfg0.itermLimit| < |st0.axisPID_I.get Axis.roll|) →
      (pidAxisStep cfg0 prof0 env0 1 1 0 st0 Axis.roll).axisPID_I.get Axis.roll =
        constrainf (st0.axisPID_I.get Axis.roll + cfg0.Ki.get Axis.roll *
            (axisSetpointLeveled cfg0 prof0 env0 st0 Axis.roll - env0.gyroADCf Axis.roll) * 1)
          (-cfg0.itermLimit) cfg0.itermLimit) ∧
    (env0.outputSaturated Axis.roll (axisSetpointLeveled cfg0 prof0 env0 st0 Axis.roll - env0.gyroADCf Axis.roll) = true →
      ¬(|constrainf (st0.axisPID_I.get Axis.roll + cfg0.Ki.get Axis.roll *
            (axisSetpointLeveled cfg0 prof0 env0 st0 Axis.roll - env0.gyroADCf Axis.roll) * 1)
          (-cfg0.itermLimit) cfg0.itermLimit| < |st0.axisPID_I.get Axis.roll|) →
      (pidAxisStep cfg0 prof0 env0 1 1 0 st0 Axis.roll).axisPID_I.get Axis.roll =
        st0.axisPID_I.get Axis.roll)) :=
  ⟨by decide, by decide, by decide,
   iterm_antiwindup cfg0 prof0 env0 1 1 0 st0 Axis.roll (by decide) (by decide)
     (by decide)⟩

/-- C3: starting a tick iteration in the Normal state, the axis
    iteration enters Recovering exactly when the axis is roll or
    pitch, crash recovery is enabled, no gyro-overflow fault is
    present, the motors are armed, the motor-mix range is fully
    saturated, the derivative magnitude exceeds crashDtermThreshold,
    the rate-error magnitude exceeds crashGyroThreshold and the
    commanded setpoint magnitude is below crashSetpointThreshold; on
    that transition crashDetectedAtUs records the current tick time. -/
theorem crash_entry_iff (cfg : Config) (prof : pidProfile) (env : Env)
    (deltaT dynCi dynCd : ℚ) (st : PidState) (a : Axis)
    (hcr : st.inCrashRecoveryMode = false) :
    ((pidAxisStep cfg prof env deltaT dynCi dynCd st a).inCrashRecoveryMode = true ↔
      (a ≠ Axis.yaw ∧ prof.crash_recovery ≠ 0 ∧
        env.gyroOverflowDetected = false ∧ env.armed = true ∧
        env.motorMixRange ≥ 1 ∧
        |axisDelta cfg prof env deltaT dynCd st a| > cfg.crashDtermThreshold ∧
        |axisSetpointLeveled cfg prof env st a - env.gyroADCf a| > cfg.crashGyroThreshold ∧
        |env.setpointRate a| < cfg.crashSetpointThreshold)) ∧
    ((pidAxisStep cfg prof env deltaT dynCi dynCd st a).inCrashRecoveryMode = true →
      (pidAxisStep cfg prof env deltaT dynCi dynCd st a).crashDetectedAtUs =
        env.currentTimeUs) := by
  have ho := crashOverride_notCrash cfg prof env st a hcr
  rw [pidAxisStep_inCrash, pidAxisStep_crashDetectedAt, ho]
  by_cases hy : a = Axis.yaw
  · rw [if_pos hy, if_pos hy]
    dsimp only
    exact ⟨⟨fun hf => absurd hf (by decide), fun hr => absurd hy hr.1⟩,
      fun hf => absurd hf (by decide)⟩
  · rw [if_neg hy, if_neg hy]
    dsimp only
    have hd := crashDetection_from_false cfg prof env a
      (axisDelta cfg prof env deltaT dynCd st a)
      (axisSetpointLeveled cfg prof env st a - env.gyroADCf a)
      st.crashDetectedAtUs
    exact ⟨⟨fun hx => ⟨hy, hd.1.mp hx⟩, fun hx => hd.1.mpr hx.2⟩, hd.2⟩

theorem crash_entry_iff_witness :
    st0.inCrashRecoveryMode = false ∧
    (((pidAxisStep cfg0 prof0 env3 1 1 0 st0 Axis.roll).inCrashRecoveryMode = true ↔
      (Axis.roll ≠ Axis.yaw ∧ prof0.crash_recovery ≠ 0 ∧
        env3.gyroOverflowDetected = false ∧ env3.armed = true ∧
        env3.motorMixRange ≥ 1 ∧
        |axisDelta cfg0 prof0 env3 1 0 st0 Axis.roll| > cfg0.crashDtermThreshold ∧
        |axisSetpointLeveled cfg0 prof0 env3 st0 Axis.roll - env3.gyroADCf Axis.roll| > cfg0.crashGyroThreshold ∧
        |env3.setpointRate Axis.roll| < cfg0.crashSetpointThreshold)) ∧
    ((pidAxisStep cfg0 prof0 env3 1 1 0 st0 Axis.roll).inCrashRecoveryMode = true →
      (pidAxisStep cfg0 prof0 env3 1 1 0 st0 Axis.roll).crashDetectedAtUs =
        env3.currentTimeUs)) :=
  ⟨by decide, crash_entry_iff cfg0 prof0 env3 1 1 0 st0 Axis.roll (by decide)⟩

/-- Disarm exit of a roll/pitch iteration: with the feature on and no
    overflow, a disarmed tick clears the recovery flag whatever the
    prior state. -/
theorem pidAxisStep_disarm_exit (cfg : Config) (prof : pidProfile) (env : Env)
    (deltaT dynCi dynCd : ℚ) (st : PidState) (a : Axis)
    (hrec : prof.crash_recovery ≠ 0) (hov : env.gyroOverflowDetected = false)
    (harm : env.armed = false) (hy : a ≠ Axis.yaw) :
    (pidAxisStep cfg prof env deltaT dynCi dynCd st a).inCrashRecoveryMode = false := by
  rw [pidAxisStep_inCrash, if_neg hy]
  unfold crashDetection
  rw [if_pos ⟨hrec, hov⟩, if_neg (show ¬(env.armed = true) by simp [harm])]
  cases hx : (axisOv cfg prof env st a).inCrash <;> simp [hx]

/-- Once the recovery flag is clear, a disarmed iteration keeps it
    clear on every axis. -/
theorem pidAxisStep_disarm_preserve (cfg : Config) (prof : pidProfile)
    (env : Env) (deltaT dynCi dynCd : ℚ) (st : PidState) (a : Axis)
    (hcr : st.inCrashRecoveryMode = false) (harm : env.armed = false) :
    (pidAxisStep cfg prof env deltaT dynCi dynCd st a).inCrashRecoveryMode = false := by
  have ho := crashOverride_notCrash cfg prof env st a hcr
  rw [pidAxisStep_inCrash, ho]
  by_cases hy : a = Axis.yaw
  · rw [if_pos hy]
  · rw [if_neg hy]
    dsimp only
    have hd := (crashDetection_from_false cfg prof env a
      (axisDelta cfg prof env deltaT dynCd st a)
      (axisSetpointLeveled cfg prof env st a - env.gyroADCf a)
      st.crashDetectedAtUs).1
    cases hx : (crashDetection cfg prof env a
        (axisDelta cfg prof env deltaT dynCd st a)
        (axisSetpointLeveled cfg prof env st a - env.gyroADCf a)
        false st.crashDetectedAtUs).1
    · rfl
    · have h2 := hd.mp hx
      rw [harm] at h2
      exact absurd h2.2.2.1 (by decide)

/-- C8 counterexample: with the crash-recovery feature disabled in the
    profile, a disarmed tick does NOT clear a latched Recovering
    state: the disarm exit sits inside the feature-enabled,
    no-overflow guard. -/
theorem pidController_disarm_counterexample :
    st8.inCrashRecoveryMode = true ∧ env8.armed = false ∧
    (pidController cfg0 prof8 env8 st8).inCrashRecoveryMode = true := by decide

/-- C8 amended: provided the crash-recovery feature is enabled and no
    gyro-overflow fault is present, a disarmed tick exits Recovering
    to Normal regardless of timers, rates, attitude and thresholds. -/
theorem pidController_disarm_exit (cfg : Config) (prof : pidProfile)
    (env : Env) (st : PidState)
    (hrec : prof.crash_recovery ≠ 0) (hov : env.gyroOverflowDetected = false)
    (_hcr : st.inCrashRecoveryMode = true) (harm : env.armed = false) :
    (pidController cfg prof env st).inCrashRecoveryMode = false := by
  simp only [pidController]
  exact pidAxisStep_disarm_preserve _ _ _ _ _ _ _ _
    (pidAxisStep_disarm_exit _ _ _ _ _ _ _ _ hrec hov harm (by decide)) harm

theorem pidController_disarm_exit_witness :
    prof0.crash_recovery ≠ 0 ∧ env8.gyroOverflowDetected = false ∧
    st8.inCrashRecoveryMode = true ∧ env8.armed = false ∧
    (pidController cfg0 prof0 env8 st8).inCrashRecoveryMode = false :=
  ⟨by decide, by decide, by decide, by decide,
   pidController_disarm_exit cfg0 prof0 env8 st8 (by decide) (by decide)
     (by decide) (by decide)⟩

/-- C4: if stabilisation is disabled or a gyro-overflow fault is
    active, all four output channels are zero on every axis after the
    tick, regardless of prior state and of the values computed earlier
    in the tick. -/
theorem pidController_stab_disabled_zeroes (cfg : Config) (prof : pidProfile)
    (env : Env) (st : PidState) (a : Axis)
    (h : cfg.pidStabilisationEnabled = false ∨ env.gyroOverflowDetected = true) :
    (pidController cfg prof env st).axisPID_P.get a = 0 ∧
    (pidController cfg prof env st).axisPID_I.get a = 0 ∧
    (pidController cfg prof env st).axisPID_D.get a = 0 ∧
    (pidController cfg prof env st).axisPIDSum.get a = 0 := by
  have hz : (!cfg.pidStabilisationEnabled || env.gyroOverflowDetected) = true := by
    rcases h with h | h <;> rw [h] <;> simp
  simp only [pidController]
  cases a
  case roll =>
    refine ⟨?_, ?_, ?_, ?_⟩
    · rw [pidAxisStep_P_ne _ _ _ _ _ _ _ _ _ (by decide : Axis.roll ≠ Axis.yaw),
        pidAxisStep_P_ne _ _ _ _ _ _ _ _ _ (by decide : Axis.roll ≠ Axis.pitch)]
      exact (pidAxisStep_zeroOut _ _ _ _ _ _ _ _ hz).1
    · rw [pidAxisStep_I_ne _ _ _ _ _ _ _ _ _ (by decide : Axis.roll ≠ Axis.yaw),
        pidAxisStep_I_ne _ _ _ _ _ _ _ _ _ (by decide : Axis.roll ≠ Axis.pitch)]
      exact (pidAxisStep_zeroOut _ _ _ _ _ _ _ _ hz).2.1
    · rw [pidAxisStep_D_ne _ _ _ _ _ _ _ _ _ (by decide : Axis.roll ≠ Axis.yaw),
        pidAxisStep_D_ne _ _ _ _ _ _ _ _ _ (by decide : Axis.roll ≠ Axis.pitch)]
      exact (pidAxisStep_zeroOut _ _ _ _ _ _ _ _ hz).2.2.1
    · rw [pidAxisStep_Sum_ne _ _ _ _ _ _ _ _ _ (by decide : Axis.roll ≠ Axis.yaw),
        pidAxisStep_Sum_ne _ _ _ _ _ _ _ _ _ (by decide : Axis.roll ≠ Axis.pitch)]
      exact (pidAxisStep_zeroOut _ _ _ _ _ _ _ _ hz).2.2.2
  case pitch =>
    refine ⟨?_, ?_, ?_, ?_⟩
    · rw [pidAxisStep_P_ne _ _ _ _ _ _ _ _ _ (by decide : Axis.pitch ≠ Axis.yaw)]
      exact (pidAxisStep_zeroOut _ _ _ _ _ _ _ _ hz).1
    · rw [pidAxisStep_I_ne _ _ _ _ _ _ _ _ _ (by decide : Axis.pitch ≠ Axis.yaw)]
      exact (pidAxisStep_zeroOut _ _ _ _ _ _ _ _ hz).2.1
    · rw [pidAxisStep_D_ne _ _ _ _ _ _ _ _ _ (by decide : Axis.pitch ≠ Axis.yaw)]
      exact (pidAxisStep_zeroOut _ _ _ _ _ _ _ _ hz).2.2.1
    · rw [pidAxisStep_Sum_ne _ _ _ _ _ _ _ _ _ (by decide : Axis.pitch ≠ Axis.yaw)]
      exact (pidAxisStep_zeroOut _ _ _ _ _ _ _ _ hz).2.2.2
  case yaw =>
    exact ⟨(pidAxisStep_zeroOut _ _ _ _ _ _ _ _ hz).1,
      (pidAxisStep_zeroOut _ _ _ _ _ _ _ _ hz).2.1,
      (pidAxisStep_zeroOut _ _ _ _ _ _ _ _ hz).2.2.1,
      (pidAxisStep_zeroOut _ _ _ _ _ _ _ _ hz).2.2.2⟩

theorem pidController_stab_disabled_zeroes_witness :
    (cfgZ.pidStabilisationEnabled = false ∨ env0.gyroOverflowDetected = true) ∧
    ((pidController cfgZ prof0 env0 st0).axisPID_P.get Axis.roll = 0 ∧
    (pidController cfgZ prof0 env0 st0).axisPID_I.get Axis.roll = 0 ∧
    (pidController cfgZ prof0 env0 st0).axisPID_D.get Axis.roll = 0 ∧
    (pidController cfgZ prof0 env0 st0).axisPIDSum.get Axis.roll = 0) :=
  ⟨Or.inl (by decide),
   pidController_stab_disabled_zeroes cfgZ prof0 env0 st0 Axis.roll
     (Or.inl (by decide))⟩

/-- Magnitude bound of the accumulator value read after the override
    block: either the prior per-axis value or the zero written while
    recovery is active. -/
theorem axisOv_iTerm_bound (cfg : Config) (prof : pidProfile) (env : Env)
    (st : PidState) (a : Axis) (h0 : 0 ≤ cfg.itermLimit)
    (hI : |st.axisPID_I.get a| ≤ cfg.itermLimit) :
    |(axisOv cfg prof env st a).iTerm| ≤ cfg.itermLimit := by
  unfold axisOv crashOverride
  split
  · simpa using h0
  · exact hI

/-- One axis iteration preserves the accumulator bound on every axis. -/
theorem pidAxisStep_I_bound (cfg : Config) (prof : pidProfile) (env : Env)
    (deltaT dynCi dynCd : ℚ) (st : PidState) (a : Axis)
    (h0 : 0 ≤ cfg.itermLimit)
    (hI : ∀ b, |st.axisPID_I.get b| ≤ cfg.itermLimit) :
    ∀ b, |(pidAxisStep cfg prof env deltaT dynCi dynCd st a).axisPID_I.get b| ≤
      cfg.itermLimit := by
  intro b
  by_cases hb : b = a
  · subst hb
    rw [pidAxisStep_I_get]
    split
    · simpa using h0
    · split
      · exact abs_constrainf_le _ _ h0
      · exact axisOv_iTerm_bound cfg prof env st b h0 (hI b)
  · rw [pidAxisStep_I_ne _ _ _ _ _ _ _ _ _ hb]
    exact hI b

/-- C1: the integral-accumulator magnitude bound |I| ≤ itermLimit is
    preserved by a full pidController tick (covering the clamped
    update, the crash-recovery zeroing and the stabilisation-disabled
    zeroing) and by pidResetITerm. -/
theorem pidController_iterm_bound (cfg : Config) (prof : pidProfile)
    (env : Env) (st : PidState) (a : Axis)
    (h0 : 0 ≤ cfg.itermLimit)
    (hI : ∀ b, |st.axisPID_I.get b| ≤ cfg.itermLimit) :
    |(pidController cfg prof env st).axisPID_I.get a| ≤ cfg.itermLimit ∧
    |(pidResetITerm st).axisPID_I.get a| ≤ cfg.itermLimit := by
  constructor
  · have h1 := pidAxisStep_I_bound cfg prof env
      ((u32sub env.currentTimeUs st.previousTimeUs : ℚ) * (1 / 1000000))
      (min ((1 - env.motorMixRange) * cfg.ITermWindupPointInv) 1 * cfg.dT *
        cfg.itermAccelerator)
      (if env.flightModeFlags ≠ 0 then 0 else cfg.dtermSetpointWeight)
      { st with previousTimeUs := env.currentTimeUs } Axis.roll h0
      (fun b => hI b)
    have h2 := pidAxisStep_I_bound cfg prof env
      ((u32sub env.currentTimeUs st.previousTimeUs : ℚ) * (1 / 1000000))
      (min ((1 - env.motorMixRange) * cfg.ITermWindupPointInv) 1 * cfg.dT *
        cfg.itermAccelerator)
      (if env.flightModeFlags ≠ 0 then 0 else cfg.dtermSetpointWeight)
      _ Axis.pitch h0 h1
    have h3 := pidAxisStep_I_bound cfg prof env
      ((u32sub env.currentTimeUs st.previousTimeUs : ℚ) * (1 / 1000000))
      (min ((1 - env.motorMixRange) * cfg.ITermWindupPointInv) 1 * cfg.dT *
        cfg.itermAccelerator)
      (if env.flightModeFlags ≠ 0 then 0 else cfg.dtermSetpointWeight)
      _ Axis.yaw h0 h2
    exact h3 a
  · cases a <;> simpa [pidResetITerm, V3.get] using h0

theorem pidController_iterm_bound_witness :
    0 ≤ cfg0.itermLimit ∧ (∀ b, |st0.axisPID_I.get b| ≤ cfg0.itermLimit) ∧
    (|(pidController cfg0 prof0 env0 st0).axisPID_I.get Axis.roll| ≤ cfg0.itermLimit ∧
    |(pidResetITerm st0).axisPID_I.get Axis.roll| ≤ cfg0.itermLimit) :=
  ⟨by decide, by decide,
   pidController_iterm_bound cfg0 prof0 env0 st0 Axis.roll (by decide)
     (by decide)⟩

/-- C10: with horizon mode active (and angle mode off) the leveling
    blend is applied only on roll, while pitch and yaw keep the
    acceleration-limited raw setpoint; with angle mode active (and
    horizon off) it is applied on roll and pitch but never yaw. -/
theorem leveling_axis_eligibility (cfg : Config) (prof : pidProfile)
    (env : Env) (st : PidState) :
    (flightMode env HORIZON_MODE = true → flightMode env ANGLE_MODE = false →
      (axisSetpointLeveled cfg prof env st Axis.roll =
        pidLevel cfg prof env Axis.roll (axisSetpointLimited cfg env st Axis.roll) ∧
      axisSetpointLeveled cfg prof env st Axis.pitch =
        axisSetpointLimited cfg env st Axis.pitch ∧
      axisSetpointLeveled cfg prof env st Axis.yaw =
        axisSetpointLimited cfg env st Axis.yaw)) ∧
    (flightMode env ANGLE_MODE = true → flightMode env HORIZON_MODE = false →
      (axisSetpointLeveled cfg prof env st Axis.roll =
        pidLevel cfg prof env Axis.roll (axisSetpointLimited cfg env st Axis.roll) ∧
      axisSetpointLeveled cfg prof env st Axis.pitch =
        pidLevel cfg prof env Axis.pitch (axisSetpointLimited cfg env st Axis.pitch) ∧
      axisSetpointLeveled cfg prof env st Axis.yaw =
        axisSetpointLimited cfg env st Axis.yaw)) := by
  constructor <;> intro h1 h2 <;> refine ⟨?_, ?_, ?_⟩ <;>
    simp [axisSetpointLeveled, h1, h2]

theorem leveling_axis_eligibility_witness :
    ((axisSetpointLeveled cfg6 prof0 env6h st0 Axis.roll =
        pidLevel cfg6 prof0 env6h Axis.roll (axisSetpointLimited cfg6 env6h st0 Axis.roll) ∧
      axisSetpointLeveled cfg6 prof0 env6h st0 Axis.pitch =
        axisSetpointLimited cfg6 env6h st0 Axis.pitch ∧
      axisSetpointLeveled cfg6 prof0 env6h st0 Axis.yaw =
        axisSetpointLimited cfg6 env6h st0 Axis.yaw)) ∧
    ((axisSetpointLeveled cfg6 prof0 env6a st0 Axis.roll =
        pidLevel cfg6 prof0 env6a Axis.roll (axisSetpointLimited cfg6 env6a st0 Axis.roll) ∧
      axisSetpointLeveled cfg6 prof0 env6a st0 Axis.pitch =
        pidLevel cfg6 prof0 env6a Axis.pitch (axisSetpointLimited cfg6 env6a st0 Axis.pitch) ∧
      axisSetpointLeveled cfg6 prof0 env6a st0 Axis.yaw =
        axisSetpointLimited cfg6 env6a st0 Axis.yaw)) :=
  ⟨(leveling_axis_eligibility cfg6 prof0 env6h st0).1 (by decide) (by decide),
   (leveling_axis_eligibility cfg6 prof0 env6a st0).2 (by decide) (by decide)⟩

end PidCore
